import Mathlib

/-!
# Verification of the howmanylines repository analyzer

Shallow embedding of the repository's three source files:
* the in-process cache backend (`MemoryCacheImpl` over an LRU store),
* the `/api/analyze` POST route: URL validation, cache lookup, clone,
  recursive line-counting traversal, adaptive-TTL cache write, and the
  timeout / negative-caching path,
* the `wrapGraceful` retrying filesystem wrapper.

Machine integers are modelled as `Nat`/`Int`/`ℚ` (the JS numbers involved are
small non-negative counts, seconds, and the rational TTL factor).  Fallible
operations return `Except`/`Option`.  External collaborators (the URL parser,
the network transport, the on-disk filesystem) are parameters of the model.
-/

namespace HowManyLines

/-! ## File-tree model for the traversal engine

A checked-out repository is a tree of named entries.  `readdir` yields the
names of the children of a directory; `stat` distinguishes files from
directories; `readFile` yields a file's content. -/

/-- A directory entry: a regular file with its content, or a subdirectory. -/
inductive Entry where
  | file (name : String) (content : String)
  | dir (name : String) (children : List Entry)
deriving Repr

/-- Helper for `extname`: the suffix of `cs` starting at the last dot,
or `none` when `cs` has no dot (helper for `extname`). -/
def extnameChars : List Char → Option (List Char)
  | [] => none
  | '.' :: rest =>
      match extnameChars rest with
      | some e => some e
      | none => some ('.' :: rest)
  | _ :: rest => extnameChars rest

/-- Node's `path.extname` on a bare file name: the substring from the last
dot to the end, except that a dot-less name or a leading-dot name (such as
`.git`) has extension `""`.  (Directory listings never contain `.` or `..`,
so those corner names are out of scope.) -/
def extname (name : String) : String :=
  match extnameChars name.data with
  | none => ""
  | some e => if e.length = name.length then "" else String.mk e

/-- JS `toLowerCase` on an extension string (character-wise lowering). -/
def lowerStr (s : String) : String := String.mk (s.data.map Char.toLower)

/-- Classification of a file name, from the route's traversal:
a file named exactly `Dockerfile` is `Dockerfile`; otherwise the lowercased
extension is looked up in the static extension→language table. -/
def classify (extMap : String → Option String) (name : String) : Option String :=
  if name = "Dockerfile" then some "Dockerfile"
  else extMap (lowerStr (extname name))

/-- Modelled from the spec: `EXTENSION_MAP` lives in `lib/constants`, which is
not among the provided sources; the spec treats it as a static extension →
language lookup table with `.py` mapping to `Python`.  Claims are settled over
an arbitrary table; this sample instantiates witnesses. -/
def sampleExtMap : String → Option String
  | ".py" => some "Python"
  | ".ts" => some "TypeScript"
  | _ => none

/-! ## Line counting: `content.split(/\r\n|\r|\n/).length` -/

/-- JS `String.prototype.split` with the regex `/\r\n|\r|\n/`: scan left to
right, and at each position the alternation prefers `\r\n` over `\r` over
`\n`.  `acc` is the segment currently being built. -/
def splitLinesAux : List Char → String → List String
  | [], acc => [acc]
  | '\r' :: '\n' :: rest, acc => acc :: splitLinesAux rest ""
  | '\r' :: rest, acc => acc :: splitLinesAux rest ""
  | '\n' :: rest, acc => acc :: splitLinesAux rest ""
  | c :: rest, acc => splitLinesAux rest (acc.push c)

/-- The list of segments of `s` split on `\r\n`, `\r`, `\n`. -/
def splitLines (s : String) : List String := splitLinesAux s.data ""

/-- Line count `content.split(/\r\n|\r|\n/).length` from the route. -/
def countLines (s : String) : Nat := (splitLines s).length

/-- Number of line-terminator occurrences (CRLF counted once). -/
def termCount : List Char → Nat
  | [] => 0
  | '\r' :: '\n' :: rest => termCount rest + 1
  | '\r' :: rest => termCount rest + 1
  | '\n' :: rest => termCount rest + 1
  | _ :: rest => termCount rest

/-! ## Contributions of the traversal

`traverse` walks the tree; every entry named `.git` is skipped; a classified
file contributes `(language, countLines content)`; an unrecognized file
contributes nothing; a directory contributes its children's contributions. -/

mutual

/-- Per-entry contributions of `traverse` (language, line count pairs),
in traversal order. -/
def entryContribs (extMap : String → Option String) : Entry → List (String × Nat)
  | .file name content =>
      if name = ".git" then []
      else
        match classify extMap name with
        | some lang => [(lang, countLines content)]
        | none => []
  | .dir name children =>
      if name = ".git" then []
      else childContribs extMap children

/-- Contributions of a list of sibling entries. -/
def childContribs (extMap : String → Option String) : List Entry → List (String × Nat)
  | [] => []
  | e :: rest => entryContribs extMap e ++ childContribs extMap rest

end

/-- JS `stats[languageName] = (stats[languageName] || 0) + lines`: add `n` to the
count stored under `lang`, creating the binding when absent. -/
def addStat (stats : List (String × Nat)) (lang : String) (n : Nat) : List (String × Nat) :=
  match stats with
  | [] => [(lang, n)]
  | (k, v) :: rest => if k = lang then (k, v + n) :: rest else (k, v) :: addStat rest lang n

/-- The result produced by a successful traversal:
`{ stats: Record<string, number>, totalLines: number }`. -/
structure AnalysisResult where
  stats : List (String × Nat)
  totalLines : Nat
deriving Repr, DecidableEq

/-- Sum of the values of the stats mapping. -/
def sumValues (stats : List (String × Nat)) : Nat := (stats.map Prod.snd).sum

/-- The traversal engine of the route: accumulate every contribution into the
shared `stats` record and the running `totalLines`. -/
def traverse (extMap : String → Option String) (root : List Entry) : AnalysisResult :=
  { stats := (childContribs extMap root).foldl (fun s p => addStat s p.1 p.2) []
    totalLines := (childContribs extMap root).foldl (fun t p => t + p.2) 0 }

/-! ## Filesystem operations issued by the traversal

`traverse` in the route issues, per directory, one `fs.readdir(currentPath)`
call made directly on the imported `fs`, then per entry one
`limit(() => fs.stat(filePath))`, and for each classified file one
`fs.readFile` inside `limit(...)`.  The `wrapGraceful` retry wrapper is
applied only to the `fs.promises` object handed to `git.clone` (`customFs`),
never to the `fs` functions used by `traverse`.  Each operation is recorded
with whether it runs through the concurrency limiter (`limited`) and through
the retrying wrapper (`retried`). -/

/-- Kinds of filesystem operations the traversal performs. -/
inductive FsOpKind where
  | readdir
  | statCall
  | readFile
deriving DecidableEq, Repr

/-- One filesystem operation of the traversal, with its wrapping. -/
structure FsOp where
  kind : FsOpKind
  limited : Bool
  retried : Bool
deriving DecidableEq, Repr

/-- Capacity in `const limit = pLimit(50)` from the route (the `pLimit` helper itself
lives in `lib/utils`, outside the provided sources; only its capacity
argument matters here). -/
def limitCapacity : Nat := 50

mutual

/-- Filesystem operations issued for one directory entry: the `.git` entry
is skipped before any call; otherwise a limited `stat`, then recursion for a
directory, or a limited `readFile` for a classified file. -/
def entryOps (extMap : String → Option String) : Entry → List FsOp
  | .file name _ =>
      if name = ".git" then []
      else
        ⟨.statCall, true, false⟩ ::
          (match classify extMap name with
            | some _ => [⟨.readFile, true, false⟩]
            | none => [])
  | .dir name children =>
      if name = ".git" then []
      else ⟨.statCall, true, false⟩ :: ⟨.readdir, false, false⟩ :: childOps extMap children

/-- Filesystem operations issued for a list of sibling entries. -/
def childOps (extMap : String → Option String) : List Entry → List FsOp
  | [] => []
  | e :: rest => entryOps extMap e ++ childOps extMap rest

end

/-- All filesystem operations of `await traverse(tempDir)`: the root
`readdir`, then the per-entry operations. -/
def traverseOps (extMap : String → Option String) (root : List Entry) : List FsOp :=
  ⟨.readdir, false, false⟩ :: childOps extMap root

/-! ## The `wrapGraceful` retrying I/O wrapper

`wrapGraceful(fn)` checks `signal.aborted` once on entry, then attempts the
operation with `retries = 10`, `delay = 100`, retrying only on
`EMFILE`/`ENFILE` while retries remain, doubling the delay each retry.  The
wrapped operation is modelled as a function from the attempt index to its
outcome; the model records the outcome, the number of attempts made, and the
backoff delays slept. -/

/-- Errors raised by a wrapped filesystem operation, discriminated by the
JS `error.code` / message used in the route. -/
inductive FsError where
  | emfile
  | enfile
  | otherErr (msg : String)
  | abortError
deriving DecidableEq, Repr

/-- Transient check on `error.code`: EMFILE or ENFILE. -/
def transientCode : FsError → Bool
  | .emfile => true
  | .enfile => true
  | _ => false

/-- Observable outcome of a `wrapGraceful`-wrapped call: the final result,
how many times the operation was attempted, and the backoff delays slept
between attempts. -/
structure RetryOutcome (α : Type) where
  result : Except FsError α
  attempts : Nat
  delays : List Nat
deriving Repr

/-- The retry loop of `wrapGraceful`: `retries` and `delay` evolve exactly as
in the source (`retries--`, `delay *= 2`); `attempt` counts attempts already
made and `acc` the delays already slept. -/
def wrapLoop (op : Nat → Except FsError α) :
    Nat → Nat → Nat → List Nat → RetryOutcome α
  | retries, delay, attempt, acc =>
    match op attempt with
    | .ok a => ⟨.ok a, attempt + 1, acc⟩
    | .error e =>
      if transientCode e then
        match retries with
        | 0 => ⟨.error e, attempt + 1, acc⟩
        | r + 1 => wrapLoop op r (delay * 2) (attempt + 1) (acc ++ [delay])
      else ⟨.error e, attempt + 1, acc⟩

/-- Definition of `wrapGraceful` from the route: fail with the cancellation error before
any attempt when the signal is already aborted, else run the retry loop with
`retries = 10`, `delay = 100`. -/
def wrapGraceful (aborted : Bool) (op : Nat → Except FsError α) : RetryOutcome α :=
  if aborted then ⟨.error .abortError, 0, []⟩
  else wrapLoop op 10 100 0 []

/-! ## Cache abstraction used by the route

The route sees `cache.get / cache.set` with per-entry TTL.  The store is
modelled as a list of entries with absolute expiration instants; `set`
prepends (shadowing any older entry for the same key, as the LRU / Redis
backends overwrite), and `get` returns the value only when the lookup time
is before the entry's expiration. -/

/-- Values stored by the route: a successful `AnalysisResult`, or the
negative `{ error }` shape written on timeout. -/
inductive CacheValue where
  | analysis (r : AnalysisResult)
  | negative (err : String)
deriving DecidableEq, Repr

/-- One stored cache entry: key, value, absolute expiration instant. -/
structure CEntry where
  key : String
  value : CacheValue
  expiresAt : Nat
deriving DecidableEq, Repr

/-- The cache store. -/
structure Cache where
  entries : List CEntry
deriving DecidableEq, Repr

/-- First entry for a key (the most recent `set` shadows older ones). -/
def lookupEntry : List CEntry → String → Option CEntry
  | [], _ => none
  | e :: rest, k => if e.key = k then some e else lookupEntry rest k

/-- Cache read `cache.get(key)` at instant `now`: absent or expired entries give
`none`. -/
def Cache.get (c : Cache) (k : String) (now : Nat) : Option CacheValue :=
  match lookupEntry c.entries k with
  | some e => if now < e.expiresAt then some e.value else none
  | none => none

/-- Cache write `cache.set(key, value, ttl)` at instant `now`. -/
def Cache.set (c : Cache) (k : String) (v : CacheValue) (ttl : Nat) (now : Nat) : Cache :=
  ⟨⟨k, v, now + ttl⟩ :: c.entries⟩

/-! ## The `/api/analyze` POST route -/

/-- The parts of `new URL(repoUrl)` the route inspects. -/
structure URLParts where
  protocol : String
  hostname : String
deriving DecidableEq, Repr

/-- Outcome of the clone + traversal phase, which depends on the network and
the deadline timer: the cloned tree and the byte counter when the analysis
ran to completion, an `AbortError` when some operation observed the tripped
signal and threw, or any other failure with its message.  Which executions
actually produce the `timeout` case is determined by `observedOutcome`
below: only the clone's instrumented transport and wrapped filesystem ever
consult the signal. -/
inductive Outcome where
  | success (tree : List Entry) (bytes : Nat)
  | timeout
  | failure (msg : String)

/-- Phase of the request during which the deadline timer fires, if at all. -/
inductive DeadlinePhase where
  | duringClone
  | duringTraversal
  | never

/-- What the route's catch block observes when the deadline fires in a given
phase, from the source: `signal.aborted` is checked by `customHttp` before
each request and at every transfer chunk, and by `wrapGraceful` on entry —
both used only by `git.clone` — so a deadline firing during the clone
surfaces as an AbortError.  The traversal's `fs.readdir`,
`limit(() => fs.stat(..))` and `fs.readFile` calls and the `pLimit` queue
never consult the signal, so a deadline firing during the traversal is not
observed and the analysis runs to natural completion. -/
def observedOutcome (phase : DeadlinePhase) (tree : List Entry) (bytes : Nat) : Outcome :=
  match phase with
  | .duringClone => .timeout
  | .duringTraversal => .success tree bytes
  | .never => .success tree bytes

/-- The HTTP response of the route. -/
structure Response where
  status : Nat
  error : Option String
  result : Option AnalysisResult
deriving DecidableEq, Repr

/-- Externally visible side effects of one request, in order. -/
inductive Event where
  | cacheGet (key : String)
  | clone (url : String)
  | cacheSet (key : String) (value : CacheValue) (ttl : Nat)
deriving DecidableEq, Repr

/-- The key an event addresses the cache under, if any. -/
def eventKey : Event → Option String
  | .cacheGet k => some k
  | .cacheSet k _ _ => some k
  | .clone _ => none

/-- Result of one request: the response, the cache afterwards, and the
side-effect trace. -/
structure PostResult where
  response : Response
  cache : Cache
  events : List Event

/-- The route's configuration surface. -/
structure Config where
  allowed : List String
  timeoutSecs : Nat
  minTtl : Nat
  perByte : ℚ
  negTtl : Nat

/-- Defaults from the route's constants. -/
def defaultConfig : Config :=
  { allowed := ["github.com", "gitlab.com", "bitbucket.org"]
    timeoutSecs := 60
    minTtl := 86400
    perByte := 1 / 100
    negTtl := 31536000 }

/-- Key construction from the route: the string `repo:` followed by the URL as given. -/
def cacheKey (repoUrl : String) : String := "repo:" ++ repoUrl

/-- The 408 message: `Analysis timed out after N seconds`. -/
def timeoutMessage (cfg : Config) : String :=
  "Analysis timed out after " ++ toString cfg.timeoutSecs ++ " seconds"

/-- JS `Math.max(CACHE_TTL_MIN_SECONDS, Math.ceil(totalBytesDownloaded *
CACHE_TTL_PER_BYTE))`.  (`Int.toNat` is the identity on the non-negative
ceilings that arise; a negative ceiling clamps to `0` and the `max` then
yields the minimum, exactly as JS `Math.max` would.) -/
def computeTtl (minTtl : Nat) (perByte : ℚ) (bytes : Nat) : Nat :=
  max minTtl (Int.toNat ⌈(bytes : ℚ) * perByte⌉)

/-- The post-validation part of the handler: cache lookup (negative-shaped
hits become 400, results become 200), then clone+traversal with the three
outcomes: success (adaptive-TTL cache write, 200), timeout (negative cache
write with the fixed TTL, 408), other failure (500). -/
def postCore (extMap : String → Option String) (cfg : Config) (repoUrl : String)
    (outcome : Outcome) (c : Cache) (now : Nat) : PostResult :=
  match Cache.get c (cacheKey repoUrl) now with
  | some (.negative err) =>
      ⟨⟨400, some err, none⟩, c, [.cacheGet (cacheKey repoUrl)]⟩
  | some (.analysis r) =>
      ⟨⟨200, none, some r⟩, c, [.cacheGet (cacheKey repoUrl)]⟩
  | none =>
    match outcome with
    | .success tree bytes =>
        ⟨⟨200, none, some (traverse extMap tree)⟩,
          Cache.set c (cacheKey repoUrl)
            (.analysis (traverse extMap tree))
            (computeTtl cfg.minTtl cfg.perByte bytes) now,
          [.cacheGet (cacheKey repoUrl), .clone repoUrl,
            .cacheSet (cacheKey repoUrl) (.analysis (traverse extMap tree))
              (computeTtl cfg.minTtl cfg.perByte bytes)]⟩
    | .timeout =>
        ⟨⟨408, some (timeoutMessage cfg), none⟩,
          Cache.set c (cacheKey repoUrl)
            (.negative (timeoutMessage cfg)) cfg.negTtl now,
          [.cacheGet (cacheKey repoUrl), .clone repoUrl,
            .cacheSet (cacheKey repoUrl) (.negative (timeoutMessage cfg))
              cfg.negTtl]⟩
    | .failure msg =>
        ⟨⟨500, some msg, none⟩, c,
          [.cacheGet (cacheKey repoUrl), .clone repoUrl]⟩

/-- The POST handler, following the source order: missing / empty body URL,
`new URL` parse failure, protocol check, allow-list check, then the
post-validation core.  The URL parser is an external collaborator passed as
`parse`. -/
def POST (parse : String → Option URLParts) (extMap : String → Option String)
    (cfg : Config) (body : Option String) (outcome : Outcome)
    (c : Cache) (now : Nat) : PostResult :=
  match body with
  | none => ⟨⟨400, some "Repository URL is required", none⟩, c, []⟩
  | some repoUrl =>
    if repoUrl = "" then ⟨⟨400, some "Repository URL is required", none⟩, c, []⟩
    else
      match parse repoUrl with
      | none => ⟨⟨400, some "Invalid URL provided", none⟩, c, []⟩
      | some u =>
        if u.protocol ≠ "http:" ∧ u.protocol ≠ "https:" then
          ⟨⟨400, some "Invalid protocol. Only HTTP/HTTPS are allowed.", none⟩, c, []⟩
        else if u.hostname ∉ cfg.allowed then
          ⟨⟨400, some ("Domain not allowed. Supported providers: " ++
            String.intercalate ", " cfg.allowed), none⟩, c, []⟩
        else postCore extMap cfg repoUrl outcome c now

/-! ## The in-process cache backend (`MemoryCacheImpl`)

`get` is `(this.cache.get(key) as T) || null`: an absent or expired LRU entry
yields `null`, and a present unexpired but *falsy* value also collapses to
`null`.  `set` passes `{ ttl: ttl ? ttl * 1000 : undefined }`, so a zero or
missing TTL falls back to the constructor default `DEFAULT_TTL * 1000`.
Stored values are modelled as JS values with their truthiness; instants are
in milliseconds as in the LRU options. -/

/-- A JS value as stored in the LRU cache (numbers are modelled as
integers; the values the app stores are objects). -/
inductive JSVal where
  | vnull
  | vbool (b : Bool)
  | vnum (n : Int)
  | vstr (s : String)
  | vobj (tag : String)
deriving DecidableEq, Repr

/-- JS truthiness. -/
def truthy : JSVal → Bool
  | .vnull => false
  | .vbool b => b
  | .vnum n => n ≠ 0
  | .vstr s => s ≠ ""
  | .vobj _ => true

/-- One LRU entry: key, value, absolute expiration in milliseconds. -/
structure MemEntry where
  key : String
  value : JSVal
  expiresAt : Nat
deriving DecidableEq, Repr

/-- Default `DEFAULT_TTL = 24 * 60 * 60` seconds, from the cache module. -/
def DEFAULT_TTL : Nat := 24 * 60 * 60

/-- Most recent entry for a key. -/
def memLookup : List MemEntry → String → Option MemEntry
  | [], _ => none
  | e :: rest, k => if e.key = k then some e else memLookup rest k

/-- The effective TTL in milliseconds of `set(key, value, ttl)`:
`ttl ? ttl * 1000 : undefined`, with `undefined` falling back to the LRU
constructor's `DEFAULT_TTL * 1000`. -/
def effectiveTtlMs : Option Nat → Nat
  | some t => if t ≠ 0 then t * 1000 else DEFAULT_TTL * 1000
  | none => DEFAULT_TTL * 1000

/-- Model of `MemoryCacheImpl.set`. -/
def memSet (store : List MemEntry) (k : String) (v : JSVal) (ttl : Option Nat)
    (now : Nat) : List MemEntry :=
  ⟨k, v, now + effectiveTtlMs ttl⟩ :: store

/-- Model of `MemoryCacheImpl.get`, i.e. `(this.cache.get(key) as T) || null`. -/
def memGet (store : List MemEntry) (k : String) (now : Nat) : JSVal :=
  match memLookup store k with
  | some e =>
      if now < e.expiresAt then
        if truthy e.value then e.value else .vnull
      else .vnull
  | none => .vnull

/-- Sample URL parser instantiating witnesses: the relevant parts of
`new URL` on a few concrete inputs (hostname and protocol are produced
lowercased with the trailing colon, as the WHATWG parser yields them). -/
def sampleParse : String → Option URLParts
  | "https://github.com/u/r" => some ⟨"https:", "github.com"⟩
  | "ftp://github.com/u/r" => some ⟨"ftp:", "github.com"⟩
  | "https://evil.example/u/r" => some ⟨"https:", "evil.example"⟩
  | _ => none

/-- Shape of every filesystem operation the traversal issues: nothing goes
through the retry wrapper; `stat` and `readFile` go through the limiter;
`readdir` does not. -/
def opShape (op : FsOp) : Prop :=
  op.retried = false
  ∧ (op.kind = .statCall → op.limited = true)
  ∧ (op.kind = .readFile → op.limited = true)
  ∧ (op.kind = .readdir → op.limited = false)

instance (op : FsOp) : Decidable (opShape op) := by
  unfold opShape
  infer_instance

/-! ## Helper lemmas -/

theorem sumValues_addStat (s : List (String × Nat)) (lang : String) (n : Nat) :
    sumValues (addStat s lang n) = sumValues s + n := by
  induction s with
  | nil => simp [addStat, sumValues]
  | cons p rest ih =>
      obtain ⟨k, v⟩ := p
      by_cases h : k = lang <;> simp [addStat, h, sumValues] at ih ⊢ <;> omega

theorem sumValues_foldl (cs : List (String × Nat)) (s : List (String × Nat)) :
    sumValues (cs.foldl (fun s p => addStat s p.1 p.2) s) =
      sumValues s + (cs.map Prod.snd).sum := by
  induction cs generalizing s with
  | nil => simp
  | cons p rest ih => simp [List.foldl_cons, ih, sumValues_addStat]; omega

theorem foldl_add_snd (cs : List (String × Nat)) (t : Nat) :
    cs.foldl (fun t p => t + p.2) t = t + (cs.map Prod.snd).sum := by
  induction cs generalizing t with
  | nil => simp
  | cons p rest ih => simp [List.foldl_cons, ih]; omega

theorem splitLinesAux_length (cs : List Char) (acc : String) :
    (splitLinesAux cs acc).length = termCount cs + 1 := by
  induction cs, acc using splitLinesAux.induct <;> simp [splitLinesAux, termCount, *]

/-- A request that passes all four validation checks proceeds to the
post-validation core. -/
theorem POST_valid_eq (parse : String → Option URLParts)
    (extMap : String → Option String) (cfg : Config) (url : String)
    (u : URLParts) (outcome : Outcome) (c : Cache) (now : Nat)
    (h1 : url ≠ "") (h2 : parse url = some u)
    (h3 : u.protocol = "http:" ∨ u.protocol = "https:")
    (h4 : u.hostname ∈ cfg.allowed) :
    POST parse extMap cfg (some url) outcome c now =
      postCore extMap cfg url outcome c now := by
  rw [POST.eq_def]
  simp only [h2, if_neg h1]
  rw [if_neg (by rcases h3 with h | h <;> simp [h]), if_neg (by simp [h4])]

mutual

theorem entryOps_shape (m : String → Option String) (e : Entry) :
    ∀ op ∈ entryOps m e, opShape op := by
  cases e with
  | file name content =>
      intro op hop
      rw [entryOps] at hop
      by_cases h : name = ".git"
      · simp [h] at hop
      · rw [if_neg h] at hop
        rcases List.mem_cons.1 hop with rfl | hop
        · decide
        · cases hcl : classify m name <;> rw [hcl] at hop
          · simp at hop
          · rcases List.mem_singleton.1 hop with rfl
            decide
  | dir name children =>
      intro op hop
      rw [entryOps] at hop
      by_cases h : name = ".git"
      · simp [h] at hop
      · rw [if_neg h] at hop
        rcases List.mem_cons.1 hop with rfl | hop
        · decide
        · rcases List.mem_cons.1 hop with rfl | hop
          · decide
          · exact childOps_shape m children op hop

theorem childOps_shape (m : String → Option String) (es : List Entry) :
    ∀ op ∈ childOps m es, opShape op := by
  cases es with
  | nil =>
      intro op hop
      simp [childOps] at hop
  | cons e rest =>
      intro op hop
      rw [childOps] at hop
      rcases List.mem_append.1 hop with h | h
      · exact entryOps_shape m e op h
      · exact childOps_shape m rest op h

end

/-- An operation that always fails with a fixed transient error exhausts the
whole retry budget: starting with `r` retries left it makes `r + 1` further
attempts and sleeps the doubling delays `delay * 2 ^ i`. -/
theorem wrapLoop_all_transient {α : Type} (op : Nat → Except FsError α)
    (e : FsError) (he : transientCode e = true) (h : ∀ k, op k = .error e)
    (r : Nat) :
    ∀ delay attempt acc, wrapLoop op r delay attempt acc =
      ⟨.error e, attempt + r + 1,
        acc ++ (List.range r).map (fun i => delay * 2 ^ i)⟩ := by
  induction r with
  | zero =>
      intro delay attempt acc
      rw [wrapLoop, h]
      simp [he]
  | succ n ih =>
      intro delay attempt acc
      rw [wrapLoop, h]
      simp only [he, if_true]
      rw [ih (delay * 2) (attempt + 1) (acc ++ [delay])]
      refine congrArg₂ _ (by omega) ?_
      rw [List.range_succ_eq_map]
      simp [List.map_map, List.append_assoc, Function.comp, pow_succ]
      intro a _
      ring

/-- The loop makes at most `retries + 1` further attempts. -/
theorem wrapLoop_attempts_le {α : Type} (op : Nat → Except FsError α) (r : Nat) :
    ∀ delay attempt acc, (wrapLoop op r delay attempt acc).attempts ≤ attempt + r + 1 := by
  induction r with
  | zero =>
      intro delay attempt acc
      rw [wrapLoop]
      cases op attempt with
      | ok a => simp
      | error e =>
          by_cases he : transientCode e <;> simp [he]
  | succ n ih =>
      intro delay attempt acc
      rw [wrapLoop]
      cases op attempt with
      | ok a => simp
      | error e =>
          by_cases he : transientCode e
          · simp only [he, if_true]
            have := ih (delay * 2) (attempt + 1) (acc ++ [delay])
            omega
          · simp [he]

/-! ## Claim theorems -/

/-- C6: for a `wrapGraceful`-wrapped filesystem operation, a transient
resource-exhaustion failure (`EMFILE`/`ENFILE`) is retried up to 10 times
with delay doubling from 100 time-units; any other failure propagates with
no retry; no call makes more than 11 attempts; and if the shared
cancellation signal is already tripped on invocation the call fails with the
cancellation error without attempting the operation at all. -/
theorem wrapGraceful_spec {α : Type} (op : Nat → Except FsError α) :
    wrapGraceful true op = ⟨.error .abortError, 0, []⟩
    ∧ (∀ e, transientCode e = true → (∀ k, op k = .error e) →
        wrapGraceful false op =
          ⟨.error e, 11, (List.range 10).map (fun i => 100 * 2 ^ i)⟩)
    ∧ (∀ s, op 0 = .error (.otherErr s) →
        wrapGraceful false op = ⟨.error (.otherErr s), 1, []⟩)
    ∧ (∀ b, (wrapGraceful b op).attempts ≤ 11)
    ∧ transientCode .emfile = true ∧ transientCode .enfile = true
    ∧ (∀ s, transientCode (.otherErr s) = false) := by
  refine ⟨rfl, ?_, ?_, ?_, rfl, rfl, fun s => rfl⟩
  · intro e he h
    rw [wrapGraceful]
    simp only [Bool.false_eq_true, if_false]
    rw [wrapLoop_all_transient op e he h 10 100 0 []]
    simp
  · intro s h0
    rw [wrapGraceful]
    simp only [Bool.false_eq_true, if_false]
    rw [wrapLoop, h0]
    simp [transientCode]
  · intro b
    cases b with
    | false =>
        rw [wrapGraceful]
        simp only [Bool.false_eq_true, if_false]
        exact le_trans (wrapLoop_attempts_le op 10 100 0 []) (by omega)
    | true =>
        rw [wrapGraceful]
        simp

/-- C6 witness: the always-`EMFILE` operation is attempted 11 times with the
doubling delays; a non-transient failure is propagated after one attempt;
a pre-tripped signal yields the cancellation error with zero attempts. -/
theorem wrapGraceful_spec_witness :
    wrapGraceful false (fun _ => (Except.error .emfile : Except FsError Unit)) =
      ⟨.error .emfile, 11, [100, 200, 400, 800, 1600, 3200, 6400, 12800, 25600, 51200]⟩
    ∧ wrapGraceful false (fun _ => (Except.error (.otherErr "boom") : Except FsError Unit)) =
      ⟨.error (.otherErr "boom"), 1, []⟩
    ∧ wrapGraceful true (fun _ => (Except.error .emfile : Except FsError Unit)) =
      ⟨.error .abortError, 0, []⟩ := by
  refine ⟨?_, ?_, ?_⟩
  · rw [(wrapGraceful_spec (fun _ => (Except.error .emfile : Except FsError Unit))).2.1
      .emfile rfl (fun k => rfl)]
    congr 1
  · exact (wrapGraceful_spec
      (fun _ => (Except.error (.otherErr "boom") : Except FsError Unit))).2.2.1 "boom" rfl
  · exact (wrapGraceful_spec (fun _ => (Except.error .emfile : Except FsError Unit))).1

/-- C1 counterexample: for the empty repository tree the traversal issues a
root directory listing that goes through neither the concurrency limiter nor
the retrying I/O wrapper, so not every listing/stat/read is performed through
both. -/
theorem traverse_ops_not_all_wrapped :
    ¬ (∀ op ∈ traverseOps sampleExtMap [], op.limited = true ∧ op.retried = true) := by
  intro h
  have hmem : (⟨.readdir, false, false⟩ : FsOp) ∈ traverseOps sampleExtMap [] := by
    rw [traverseOps]
    exact List.mem_cons_self _ _
  have := h _ hmem
  simp at this

/-- C1 (amended): during traversal every `stat` and every file read is
performed through the concurrency limiter, whose capacity is 50, but
directory listings bypass the limiter, and none of the traversal's
filesystem operations pass through the retrying I/O wrapper (that wrapper is
applied only to the filesystem object handed to the clone step). -/
theorem traverse_ops_wrapping (m : String → Option String) (root : List Entry) :
    (∀ op ∈ traverseOps m root,
      op.retried = false
      ∧ ((op.kind = .statCall ∨ op.kind = .readFile) → op.limited = true)
      ∧ (op.kind = .readdir → op.limited = false))
    ∧ limitCapacity = 50 := by
  refine ⟨?_, rfl⟩
  intro op hop
  have hs : opShape op := by
    rw [traverseOps] at hop
    rcases List.mem_cons.1 hop with rfl | h
    · decide
    · exact childOps_shape m root op h
  obtain ⟨h1, h2, h3, h4⟩ := hs
  exact ⟨h1, fun h => h.elim h2 h3, h4⟩

/-- C1 witness: on a one-file tree, the `stat` issued for `a.py` is limited
and unretried, and the root `readdir` is unlimited. -/
theorem traverse_ops_wrapping_witness :
    ((⟨.statCall, true, false⟩ : FsOp).retried = false
      ∧ (((⟨.statCall, true, false⟩ : FsOp).kind = .statCall
          ∨ (⟨.statCall, true, false⟩ : FsOp).kind = .readFile) →
        (⟨.statCall, true, false⟩ : FsOp).limited = true)
      ∧ ((⟨.statCall, true, false⟩ : FsOp).kind = .readdir →
        (⟨.statCall, true, false⟩ : FsOp).limited = false))
    ∧ limitCapacity = 50 :=
  ⟨(traverse_ops_wrapping sampleExtMap [.file "a.py" "x"]).1
      ⟨.statCall, true, false⟩
      (by
        rw [traverseOps, childOps, entryOps]
        simp only [childOps]
        decide),
    (traverse_ops_wrapping sampleExtMap [.file "a.py" "x"]).2⟩

/-- C4: for every AnalysisResult produced by a successful traversal,
`totalLines` equals the sum over all values of the `stats` mapping, and
every value in `stats` is a non-negative integer. -/
theorem traverse_totalLines_eq_sumValues (extMap : String → Option String)
    (root : List Entry) :
    (traverse extMap root).totalLines = sumValues (traverse extMap root).stats
    ∧ ∀ p ∈ (traverse extMap root).stats, 0 ≤ p.2 := by
  constructor
  · have h1 : (traverse extMap root).totalLines =
        ((childContribs extMap root).map Prod.snd).sum := by
      simp [traverse, foldl_add_snd]
    have h2 : sumValues (traverse extMap root).stats =
        ((childContribs extMap root).map Prod.snd).sum := by
      simp only [traverse]
      rw [sumValues_foldl]
      simp [sumValues]
    rw [h1, h2]
  · intro p _
    exact Nat.zero_le _

/-- C4 witness: the invariant evaluated on a concrete repository tree. -/
theorem traverse_totalLines_eq_sumValues_witness :
    (traverse sampleExtMap
        [.file "a.py" "1\n2\n3", .file "b.py" "1\n2\n3\n4\n5", .file "README" "x"]).totalLines =
      sumValues (traverse sampleExtMap
        [.file "a.py" "1\n2\n3", .file "b.py" "1\n2\n3\n4\n5", .file "README" "x"]).stats
    ∧ 0 ≤ (("Python", 8) : String × Nat).2 :=
  ⟨(traverse_totalLines_eq_sumValues sampleExtMap
      [.file "a.py" "1\n2\n3", .file "b.py" "1\n2\n3\n4\n5", .file "README" "x"]).1,
    (traverse_totalLines_eq_sumValues sampleExtMap
      [.file "a.py" "1\n2\n3", .file "b.py" "1\n2\n3\n4\n5", .file "README" "x"]).2
      ("Python", 8)
      (by simp only [traverse, childContribs, entryContribs]; decide)⟩

/-- C5: a classified file contributes exactly
`content.split(CRLF | CR | LF).length` lines, which is the number of
line-terminator occurrences plus one; in particular a zero-byte file
contributes exactly 1 line. -/
theorem classified_file_lines (extMap : String → Option String)
    (name content lang : String)
    (hgit : name ≠ ".git") (hcl : classify extMap name = some lang) :
    entryContribs extMap (.file name content) = [(lang, countLines content)]
    ∧ countLines content = (splitLines content).length
    ∧ countLines content = termCount content.data + 1
    ∧ countLines "" = 1 := by
  refine ⟨?_, rfl, ?_, by decide⟩
  · simp [entryContribs, hgit, hcl]
  · simp [countLines, splitLines, splitLinesAux_length]

/-- C5 witness: a Python file with mixed terminators and the empty file. -/
theorem classified_file_lines_witness :
    entryContribs sampleExtMap (.file "a.py" "x\r\ny\rz\nw") =
      [("Python", countLines "x\r\ny\rz\nw")]
    ∧ countLines "x\r\ny\rz\nw" = termCount "x\r\ny\rz\nw".data + 1
    ∧ countLines "" = 1 :=
  ⟨(classified_file_lines sampleExtMap "a.py" "x\r\ny\rz\nw" "Python"
      (by decide) (by decide)).1,
    (classified_file_lines sampleExtMap "a.py" "x\r\ny\rz\nw" "Python"
      (by decide) (by decide)).2.2.1,
    (classified_file_lines sampleExtMap "a.py" "x\r\ny\rz\nw" "Python"
      (by decide) (by decide)).2.2.2⟩

/-- C9: during traversal, a regular file named exactly `Dockerfile` is
counted under language key `Dockerfile` regardless of the extension table;
any other file is classified by its lowercased extension through the static
table; a file with an unrecognized extension is skipped entirely (no stats
entry, no count). -/
theorem file_classification (extMap : String → Option String)
    (name content : String) (hgit : name ≠ ".git") :
    (name = "Dockerfile" →
      entryContribs extMap (.file name content) = [("Dockerfile", countLines content)])
    ∧ (∀ lang, name ≠ "Dockerfile" → extMap (lowerStr (extname name)) = some lang →
      entryContribs extMap (.file name content) = [(lang, countLines content)])
    ∧ (name ≠ "Dockerfile" → extMap (lowerStr (extname name)) = none →
      entryContribs extMap (.file name content) = []) := by
  refine ⟨?_, ?_, ?_⟩
  · intro h
    subst h
    simp [entryContribs, classify, hgit]
  · intro lang hdock hext
    simp [entryContribs, classify, hgit, hdock, hext]
  · intro hdock hext
    simp [entryContribs, classify, hgit, hdock, hext]

/-- C9 witness: `Dockerfile` with 10 lines counts under `Dockerfile` even
though the table has no entry for its (empty) extension; `a.PY` classifies
through the table via its lowercased extension; `README` is skipped. -/
theorem file_classification_witness :
    entryContribs sampleExtMap (.file "Dockerfile" "1\n2\n3\n4\n5\n6\n7\n8\n9\n10") =
      [("Dockerfile", countLines "1\n2\n3\n4\n5\n6\n7\n8\n9\n10")]
    ∧ entryContribs sampleExtMap (.file "a.PY" "x") = [("Python", countLines "x")]
    ∧ entryContribs sampleExtMap (.file "README" "x") = [] :=
  ⟨(file_classification sampleExtMap "Dockerfile" "1\n2\n3\n4\n5\n6\n7\n8\n9\n10"
      (by decide)).1 rfl,
    (file_classification sampleExtMap "a.PY" "x" (by decide)).2.1 "Python"
      (by decide) (by decide),
    (file_classification sampleExtMap "README" "x" (by decide)).2.2
      (by decide) (by decide)⟩

/-- C8: a request whose URL is missing, unparseable, of a scheme outside
http/https, or with a host outside the allow-list is rejected with a 400
with no side effect at all — the empty event trace shows no cache access and
no network call, the cache is returned unchanged, and the response does not
depend on the clone outcome. -/
theorem post_validation_rejects (parse : String → Option URLParts)
    (extMap : String → Option String) (cfg : Config) (outcome : Outcome)
    (c : Cache) (now : Nat) :
    (∀ body, body = none ∨ body = some "" →
      POST parse extMap cfg body outcome c now =
        ⟨⟨400, some "Repository URL is required", none⟩, c, []⟩)
    ∧ (∀ url, url ≠ "" → parse url = none →
      POST parse extMap cfg (some url) outcome c now =
        ⟨⟨400, some "Invalid URL provided", none⟩, c, []⟩)
    ∧ (∀ url u, url ≠ "" → parse url = some u →
        u.protocol ≠ "http:" → u.protocol ≠ "https:" →
      POST parse extMap cfg (some url) outcome c now =
        ⟨⟨400, some "Invalid protocol. Only HTTP/HTTPS are allowed.", none⟩, c, []⟩)
    ∧ (∀ url u, url ≠ "" → parse url = some u →
        (u.protocol = "http:" ∨ u.protocol = "https:") → u.hostname ∉ cfg.allowed →
      POST parse extMap cfg (some url) outcome c now =
        ⟨⟨400, some ("Domain not allowed. Supported providers: " ++
          String.intercalate ", " cfg.allowed), none⟩, c, []⟩) := by
  refine ⟨?_, ?_, ?_, ?_⟩
  · rintro body (rfl | rfl) <;> simp [POST]
  · intro url h1 h2
    simp [POST, h1, h2]
  · intro url u h1 h2 h3 h4
    simp [POST, h1, h2, h3, h4]
  · intro url u h1 h2 h3 h4
    rw [POST.eq_def]
    simp only [h2, if_neg h1]
    rw [if_neg (by rcases h3 with h | h <;> simp [h]), if_pos h4]

/-- C8 witness: the four rejection cases on concrete URLs. -/
theorem post_validation_rejects_witness :
    POST sampleParse sampleExtMap defaultConfig none (.failure "net") ⟨[]⟩ 0 =
      ⟨⟨400, some "Repository URL is required", none⟩, ⟨[]⟩, []⟩
    ∧ POST sampleParse sampleExtMap defaultConfig (some "notaurl") (.failure "net") ⟨[]⟩ 0 =
      ⟨⟨400, some "Invalid URL provided", none⟩, ⟨[]⟩, []⟩
    ∧ POST sampleParse sampleExtMap defaultConfig (some "ftp://github.com/u/r")
        (.failure "net") ⟨[]⟩ 0 =
      ⟨⟨400, some "Invalid protocol. Only HTTP/HTTPS are allowed.", none⟩, ⟨[]⟩, []⟩
    ∧ POST sampleParse sampleExtMap defaultConfig (some "https://evil.example/u/r")
        (.failure "net") ⟨[]⟩ 0 =
      ⟨⟨400, some ("Domain not allowed. Supported providers: " ++
        String.intercalate ", " defaultConfig.allowed), none⟩, ⟨[]⟩, []⟩ :=
  ⟨(post_validation_rejects sampleParse sampleExtMap defaultConfig (.failure "net") ⟨[]⟩ 0).1
      none (Or.inl rfl),
    (post_validation_rejects sampleParse sampleExtMap defaultConfig (.failure "net") ⟨[]⟩ 0).2.1
      "notaurl" (by decide) (by decide),
    (post_validation_rejects sampleParse sampleExtMap defaultConfig (.failure "net") ⟨[]⟩ 0).2.2.1
      "ftp://github.com/u/r" ⟨"ftp:", "github.com"⟩ (by decide) (by decide)
      (by decide) (by decide),
    (post_validation_rejects sampleParse sampleExtMap defaultConfig (.failure "net") ⟨[]⟩ 0).2.2.2
      "https://evil.example/u/r" ⟨"https:", "evil.example"⟩ (by decide) (by decide)
      (Or.inr rfl) (by decide)⟩

/-- C3: for a validated request, the key used for the cache lookup and for
every cache write (the success write and the timeout write alike) is
`repo:<originalUrlAsGiven>`: the first event is always the lookup under that
key, and every cache-addressing event of the request uses that same key,
whatever the clone/traversal outcome. -/
theorem post_cache_key_consistent (parse : String → Option URLParts)
    (extMap : String → Option String) (cfg : Config) (url : String)
    (u : URLParts) (outcome : Outcome) (c : Cache) (now : Nat)
    (h1 : url ≠ "") (h2 : parse url = some u)
    (h3 : u.protocol = "http:" ∨ u.protocol = "https:")
    (h4 : u.hostname ∈ cfg.allowed) :
    (POST parse extMap cfg (some url) outcome c now).events.head? =
      some (.cacheGet (cacheKey url))
    ∧ (∀ ev ∈ (POST parse extMap cfg (some url) outcome c now).events,
        eventKey ev = none ∨ eventKey ev = some (cacheKey url))
    ∧ cacheKey url = "repo:" ++ url := by
  rw [POST_valid_eq parse extMap cfg url u outcome c now h1 h2 h3 h4]
  cases hget : Cache.get c (cacheKey url) now with
  | some v =>
      cases v with
      | analysis r =>
          exact ⟨by simp [postCore, hget], by simp [postCore, hget, eventKey], rfl⟩
      | negative err =>
          exact ⟨by simp [postCore, hget], by simp [postCore, hget, eventKey], rfl⟩
  | none =>
      cases outcome with
      | success tree bytes =>
          exact ⟨by simp [postCore, hget], by simp [postCore, hget, eventKey], rfl⟩
      | timeout =>
          exact ⟨by simp [postCore, hget], by simp [postCore, hget, eventKey], rfl⟩
      | failure msg =>
          exact ⟨by simp [postCore, hget], by simp [postCore, hget, eventKey], rfl⟩

/-- C3 witness: a concrete validated request starts with the lookup under
`repo:https://github.com/u/r`, and that key is the literal `repo:` prefix
applied to the URL as given. -/
theorem post_cache_key_consistent_witness :
    (POST sampleParse sampleExtMap defaultConfig (some "https://github.com/u/r")
        .timeout ⟨[]⟩ 0).events.head? =
      some (.cacheGet "repo:https://github.com/u/r")
    ∧ cacheKey "https://github.com/u/r" = "repo:" ++ "https://github.com/u/r" :=
  ⟨(post_cache_key_consistent sampleParse sampleExtMap defaultConfig
      "https://github.com/u/r" ⟨"https:", "github.com"⟩ .timeout ⟨[]⟩ 0
      (by decide) (by decide) (Or.inr rfl) (by decide)).1,
    (post_cache_key_consistent sampleParse sampleExtMap defaultConfig
      "https://github.com/u/r" ⟨"https:", "github.com"⟩ .timeout ⟨[]⟩ 0
      (by decide) (by decide) (Or.inr rfl) (by decide)).2.2⟩

/-- C2 counterexample: the deadline fires while the traversal of a concrete
one-file repository is still running — the clone is done, so no operation
ever observes the tripped signal — and the response is a 200 success with no
error, not the 408 the claim requires for every request whose traversal has
not completed at the deadline. -/
theorem post_traversal_timeout_not_408 :
    (POST sampleParse sampleExtMap defaultConfig (some "https://github.com/u/r")
        (observedOutcome .duringTraversal [.file "a.py" "1\n2\n3"] 500) ⟨[]⟩ 0).response.status
      = 200
    ∧ (POST sampleParse sampleExtMap defaultConfig (some "https://github.com/u/r")
        (observedOutcome .duringTraversal [.file "a.py" "1\n2\n3"] 500) ⟨[]⟩ 0).response.status
      ≠ 408
    ∧ (POST sampleParse sampleExtMap defaultConfig (some "https://github.com/u/r")
        (observedOutcome .duringTraversal [.file "a.py" "1\n2\n3"] 500) ⟨[]⟩ 0).response.error
      = none := by
  rw [POST_valid_eq sampleParse sampleExtMap defaultConfig "https://github.com/u/r"
    ⟨"https:", "github.com"⟩ (observedOutcome .duringTraversal [.file "a.py" "1\n2\n3"] 500)
    ⟨[]⟩ 0 (by decide) (by decide) (Or.inr rfl) (by decide)]
  refine ⟨by simp [postCore, observedOutcome, Cache.get, lookupEntry],
    by simp [postCore, observedOutcome, Cache.get, lookupEntry],
    by simp [postCore, observedOutcome, Cache.get, lookupEntry]⟩

/-- C2 (amended): the shared abort signal is observed only by the clone's
instrumented transport and retry-wrapped filesystem, never by the traversal,
so only a deadline elapsing during the fetch surfaces as an AbortError: in
that case the response is a 408 carrying `Analysis timed out after <N>
seconds`, a negative `{ error }` entry is stored under the same cache key
with the fixed negative TTL, and any subsequent request for the same URL
made while that entry is unexpired answers the same error from the cache —
its trace is the single cache lookup, with no clone and no cache write.  A
deadline elapsing during the traversal goes unobserved: the request
completes as a 200 success. -/
theorem post_fetch_timeout_negative_caching (parse : String → Option URLParts)
    (extMap : String → Option String) (cfg : Config) (url : String)
    (u : URLParts) (outcome2 : Outcome) (tree : List Entry) (bytes : Nat)
    (c : Cache) (now t' : Nat)
    (h1 : url ≠ "") (h2 : parse url = some u)
    (h3 : u.protocol = "http:" ∨ u.protocol = "https:")
    (h4 : u.hostname ∈ cfg.allowed)
    (hmiss : Cache.get c (cacheKey url) now = none)
    (ht : t' < now + cfg.negTtl) :
    POST parse extMap cfg (some url) (observedOutcome .duringClone tree bytes) c now =
      ⟨⟨408, some (timeoutMessage cfg), none⟩,
        ⟨⟨cacheKey url, .negative (timeoutMessage cfg), now + cfg.negTtl⟩ :: c.entries⟩,
        [.cacheGet (cacheKey url), .clone url,
          .cacheSet (cacheKey url) (.negative (timeoutMessage cfg)) cfg.negTtl]⟩
    ∧ POST parse extMap cfg (some url) outcome2
        ⟨⟨cacheKey url, .negative (timeoutMessage cfg), now + cfg.negTtl⟩ :: c.entries⟩ t' =
      ⟨⟨400, some (timeoutMessage cfg), none⟩,
        ⟨⟨cacheKey url, .negative (timeoutMessage cfg), now + cfg.negTtl⟩ :: c.entries⟩,
        [.cacheGet (cacheKey url)]⟩
    ∧ timeoutMessage cfg =
        "Analysis timed out after " ++ toString cfg.timeoutSecs ++ " seconds"
    ∧ (POST parse extMap cfg (some url) (observedOutcome .duringTraversal tree bytes) c now).response =
        ⟨200, none, some (traverse extMap tree)⟩ := by
  refine ⟨?_, ?_, rfl, ?_⟩
  · rw [show observedOutcome .duringClone tree bytes = .timeout from rfl]
    rw [POST_valid_eq parse extMap cfg url u .timeout c now h1 h2 h3 h4]
    simp [postCore, hmiss, Cache.set]
  · rw [POST_valid_eq parse extMap cfg url u outcome2 _ t' h1 h2 h3 h4]
    have hget : Cache.get
        ⟨⟨cacheKey url, .negative (timeoutMessage cfg), now + cfg.negTtl⟩ :: c.entries⟩
        (cacheKey url) t' = some (.negative (timeoutMessage cfg)) := by
      simp [Cache.get, lookupEntry, ht]
    simp [postCore, hget]
  · rw [show observedOutcome .duringTraversal tree bytes = .success tree bytes from rfl]
    rw [POST_valid_eq parse extMap cfg url u (.success tree bytes) c now h1 h2 h3 h4]
    simp [postCore, hmiss]

/-- C2 witness: with the default configuration (60-second deadline, one-year
negative TTL), a deadline firing during the clone of a concrete URL yields
the 408 with `Analysis timed out after 60 seconds` and stores the negative
entry; a second request 1000 time-units later answers the same error from
the cache even though its own clone would have succeeded; a deadline firing
during the traversal instead yields a 200. -/
theorem post_fetch_timeout_negative_caching_witness :
    POST sampleParse sampleExtMap defaultConfig (some "https://github.com/u/r")
        (observedOutcome .duringClone [] 7) ⟨[]⟩ 0 =
      ⟨⟨408, some "Analysis timed out after 60 seconds", none⟩,
        ⟨[⟨"repo:https://github.com/u/r",
            .negative "Analysis timed out after 60 seconds", 31536000⟩]⟩,
        [.cacheGet "repo:https://github.com/u/r", .clone "https://github.com/u/r",
          .cacheSet "repo:https://github.com/u/r"
            (.negative "Analysis timed out after 60 seconds") 31536000]⟩
    ∧ POST sampleParse sampleExtMap defaultConfig (some "https://github.com/u/r")
        (.success [] 7)
        ⟨[⟨"repo:https://github.com/u/r",
            .negative "Analysis timed out after 60 seconds", 31536000⟩]⟩ 1000 =
      ⟨⟨400, some "Analysis timed out after 60 seconds", none⟩,
        ⟨[⟨"repo:https://github.com/u/r",
            .negative "Analysis timed out after 60 seconds", 31536000⟩]⟩,
        [.cacheGet "repo:https://github.com/u/r"]⟩
    ∧ (POST sampleParse sampleExtMap defaultConfig (some "https://github.com/u/r")
        (observedOutcome .duringTraversal [] 7) ⟨[]⟩ 0).response.status = 200 :=
  ⟨(post_fetch_timeout_negative_caching sampleParse sampleExtMap defaultConfig
      "https://github.com/u/r" ⟨"https:", "github.com"⟩ (.success [] 7) [] 7 ⟨[]⟩ 0 1000
      (by decide) (by decide) (Or.inr rfl) (by decide) rfl (by decide)).1,
    (post_fetch_timeout_negative_caching sampleParse sampleExtMap defaultConfig
      "https://github.com/u/r" ⟨"https:", "github.com"⟩ (.success [] 7) [] 7 ⟨[]⟩ 0 1000
      (by decide) (by decide) (Or.inr rfl) (by decide) rfl (by decide)).2.1,
    by
      rw [(post_fetch_timeout_negative_caching sampleParse sampleExtMap defaultConfig
        "https://github.com/u/r" ⟨"https:", "github.com"⟩ (.success [] 7) [] 7 ⟨[]⟩ 0 1000
        (by decide) (by decide) (Or.inr rfl) (by decide) rfl (by decide)).2.2.2]⟩

/-- C7: a successful analysis is cached with
`ttl = max(minimumTtl, ceil(bytesTransferred * ttlPerByteFactor))`; the
derived TTL is monotone in the transferred bytes (for a non-negative factor,
as configured) and never below the configured minimum. -/
theorem post_success_ttl (parse : String → Option URLParts)
    (extMap : String → Option String) (cfg : Config) (url : String)
    (u : URLParts) (tree : List Entry) (bytes : Nat) (c : Cache) (now : Nat)
    (h1 : url ≠ "") (h2 : parse url = some u)
    (h3 : u.protocol = "http:" ∨ u.protocol = "https:")
    (h4 : u.hostname ∈ cfg.allowed)
    (hmiss : Cache.get c (cacheKey url) now = none) :
    POST parse extMap cfg (some url) (.success tree bytes) c now =
      ⟨⟨200, none, some (traverse extMap tree)⟩,
        ⟨⟨cacheKey url, .analysis (traverse extMap tree),
            now + computeTtl cfg.minTtl cfg.perByte bytes⟩ :: c.entries⟩,
        [.cacheGet (cacheKey url), .clone url,
          .cacheSet (cacheKey url) (.analysis (traverse extMap tree))
            (computeTtl cfg.minTtl cfg.perByte bytes)]⟩
    ∧ computeTtl cfg.minTtl cfg.perByte bytes =
        max cfg.minTtl (Int.toNat ⌈(bytes : ℚ) * cfg.perByte⌉)
    ∧ (∀ b1 b2 : Nat, b1 < b2 → 0 ≤ cfg.perByte →
        computeTtl cfg.minTtl cfg.perByte b1 ≤ computeTtl cfg.minTtl cfg.perByte b2)
    ∧ (∀ b : Nat, cfg.minTtl ≤ computeTtl cfg.minTtl cfg.perByte b) := by
  refine ⟨?_, rfl, ?_, fun b => le_max_left _ _⟩
  · rw [POST_valid_eq parse extMap cfg url u (.success tree bytes) c now h1 h2 h3 h4]
    simp [postCore, hmiss, Cache.set]
  · intro b1 b2 hb hp
    unfold computeTtl
    refine max_le_max (le_refl _) (Int.toNat_le_toNat (Int.ceil_le_ceil ?_))
    have hc : (b1 : ℚ) ≤ (b2 : ℚ) := by exact_mod_cast hb.le
    exact mul_le_mul_of_nonneg_right hc hp

/-- C7 witness: with the default configuration (`minTtl = 86400`,
factor `0.01`), 200 transferred bytes give the floor TTL 86400; larger
transfers give monotonically larger TTLs; the floor holds at 5 bytes. -/
theorem post_success_ttl_witness :
    POST sampleParse sampleExtMap defaultConfig (some "https://github.com/u/r")
        (.success [] 200) ⟨[]⟩ 0 =
      ⟨⟨200, none, some (traverse sampleExtMap [])⟩,
        ⟨[⟨"repo:https://github.com/u/r", .analysis (traverse sampleExtMap []),
            0 + computeTtl defaultConfig.minTtl defaultConfig.perByte 200⟩]⟩,
        [.cacheGet "repo:https://github.com/u/r", .clone "https://github.com/u/r",
          .cacheSet "repo:https://github.com/u/r" (.analysis (traverse sampleExtMap []))
            (computeTtl defaultConfig.minTtl defaultConfig.perByte 200)]⟩
    ∧ computeTtl defaultConfig.minTtl defaultConfig.perByte 200 = 86400
    ∧ computeTtl defaultConfig.minTtl defaultConfig.perByte 10000000 ≤
        computeTtl defaultConfig.minTtl defaultConfig.perByte 20000000
    ∧ defaultConfig.minTtl ≤ computeTtl defaultConfig.minTtl defaultConfig.perByte 5 := by
  refine ⟨?_, ?_, ?_, ?_⟩
  · exact (post_success_ttl sampleParse sampleExtMap defaultConfig "https://github.com/u/r"
      ⟨"https:", "github.com"⟩ [] 200 ⟨[]⟩ 0
      (by decide) (by decide) (Or.inr rfl) (by decide) rfl).1
  · norm_num [computeTtl, defaultConfig]
  · exact (post_success_ttl sampleParse sampleExtMap defaultConfig "https://github.com/u/r"
      ⟨"https:", "github.com"⟩ [] 200 ⟨[]⟩ 0
      (by decide) (by decide) (Or.inr rfl) (by decide) rfl).2.2.1
      10000000 20000000 (by decide) (by norm_num [defaultConfig])
  · exact (post_success_ttl sampleParse sampleExtMap defaultConfig "https://github.com/u/r"
      ⟨"https:", "github.com"⟩ [] 200 ⟨[]⟩ 0
      (by decide) (by decide) (Or.inr rfl) (by decide) rfl).2.2.2 5

/-- C10: the in-process cache backend's `get` collapses any stored falsy
value (`0`, `""`, `false`) to `null` even while unexpired, and returns a
stored truthy value unchanged while unexpired. -/
theorem memoryCache_falsy_get (store : List MemEntry) (k : String) (v : JSVal)
    (ttl : Option Nat) (now t' : Nat)
    (ht : t' < now + effectiveTtlMs ttl) :
    (truthy v = false → memGet (memSet store k v ttl now) k t' = .vnull)
    ∧ (truthy v = true → memGet (memSet store k v ttl now) k t' = v)
    ∧ truthy (.vnum 0) = false ∧ truthy (.vstr "") = false
    ∧ truthy (.vbool false) = false := by
  refine ⟨?_, ?_, by decide, by decide, by decide⟩
  · intro hv
    simp [memGet, memSet, memLookup, ht, hv]
  · intro hv
    simp [memGet, memSet, memLookup, ht, hv]

/-- C10 witness: a stored `0` reads back as `null` well within its TTL,
while a stored (truthy) object reads back unchanged. -/
theorem memoryCache_falsy_get_witness :
    memGet (memSet [] "repo:x" (.vnum 0) (some 60) 0) "repo:x" 30000 = .vnull
    ∧ memGet (memSet [] "repo:x" (.vobj "result") (some 60) 0) "repo:x" 30000 =
        .vobj "result" :=
  ⟨(memoryCache_falsy_get [] "repo:x" (.vnum 0) (some 60) 0 30000 (by decide)).1
      (by decide),
    (memoryCache_falsy_get [] "repo:x" (.vobj "result") (some 60) 0 30000 (by decide)).2.1
      (by decide)⟩

end HowManyLines
